import Mathlib

/-!
Shallow embedding of the `sploitlib` Python package (files
`sploitlib/config.py` and `sploitlib/http.py`) and proofs of the spec
claims about it.

The package is configuration plumbing over the `requests` HTTP client:
a process-wide `Config` object, two User-Agent strategies, a base
session (`RequestsSession`), a cache-proxy session (`CacheProxySession`),
and a per-request connection transport (`PerRequestAdapter` together with
the `PerRequestHTTPPool`/`PerRequestHTTPSPool` pool overrides).

Modelling conventions:
- Python `Optional[T]` arguments become `Option T`; `None` becomes `none`.
- The `Default` sentinel of `config.py` (`default = Default()`) becomes
  the `DefaultOr.default` constructor, distinct from every concrete value.
- Zero-argument user-agent callables (possibly stateful in Python) are
  modelled as functions of an invocation counter `Nat → UAValue`; the
  session state carries the counter and `prepare_request` advances it by
  one per invocation, mirroring the single call per prepared request.
- Header collections are association lists with case-insensitive keys,
  mirroring the `CaseInsensitiveDict` of `requests`.  A header value is
  either a string, the Python `None` (which `requests` treats as "delete
  this header"), or the `urllib3.util.SKIP_HEADER` sentinel (which
  `urllib3` treats as "send no such header line").
- Python exceptions (`ValueError` in `CacheProxySession.__init__`)
  become `Except String`, carrying the exact message strings of the
  source.
- The mutation `conn.close()` performed by the pool overrides is
  modelled by returning the connection's post-call state.
-/

set_option autoImplicit false

/-- The value of a header as stored in a session's or request's header
collection: a concrete string, the Python `None` (header forced absent),
or the `urllib3.util.SKIP_HEADER` sentinel. -/
inductive HeaderValue where
  | str (s : String)
  | pyNone
  | skipHeader
deriving DecidableEq, Repr

/-- Result of a user-agent callable: `Optional[str]` in Python, where the
interesting non-string value is the `urllib3.util.SKIP_HEADER` sentinel. -/
inductive UAValue where
  | str (s : String)
  | skipHeader
deriving DecidableEq, Repr

/-- Coercion of a user-agent callable's result into the stored header value
(`request.headers["User-Agent"] = self.user_agent()`). -/
def UAValue.toHeaderValue : UAValue → HeaderValue
  | .str s => .str s
  | .skipHeader => .skipHeader

/-- The `config.py` `Default` sentinel: `Union[Default, α]`.  `DefaultOr.default`
models the module-level `default = Default()` marker and is distinct from
every concrete `val` (including `val false` and `val ""`). -/
inductive DefaultOr (α : Type) where
  | default
  | val (a : α)
deriving DecidableEq, Repr

/-- A user-agent provider: a zero-argument Python callable returning
`Optional[str]`, modelled as a function of its invocation count so that a
stateful provider can return different values on later calls. -/
def UAProvider : Type := Nat → UAValue

/-- The `config.py` `Config` dataclass: the five fields of the process-wide
configuration store `sploitcfg`. -/
structure Config where
  session_per_request_conn : DefaultOr Bool
  session_user_agent : DefaultOr UAProvider
  cache_proxy_url : Option String
  cache_auth_key : Option String
  cache_duration : Option String

/-- Model of `Config.set`: field-by-field assignment from another `Config`
(`self.session_per_request_conn = cfg.session_per_request_conn; ...`).
A total function: no validation is performed and no error can be raised. -/
def Config.set (_self cfg : Config) : Config :=
  { session_per_request_conn := cfg.session_per_request_conn
    session_user_agent := cfg.session_user_agent
    cache_proxy_url := cfg.cache_proxy_url
    cache_auth_key := cfg.cache_auth_key
    cache_duration := cfg.cache_duration }

/-- The default value of the process-wide store: `sploitcfg = Config()`,
i.e. every dataclass field at its declared default. -/
def Config.initial : Config :=
  { session_per_request_conn := .default
    session_user_agent := .default
    cache_proxy_url := none
    cache_auth_key := none
    cache_duration := none }

/-- Helper shared by proofs: `Config.set` replaces every field, so the
result is exactly the argument configuration. -/
theorem Config.set_eq (a b : Config) : Config.set a b = b := rfl

/-! ## Header collections -/

/-- The lower-cased characters of a header key, used for the
case-insensitive key comparison of `requests`' `CaseInsensitiveDict`. -/
def keyLower (s : String) : List Char :=
  s.data.map Char.toLower

/-- Case-insensitive header lookup, mirroring `requests`'
`CaseInsensitiveDict`: the first entry whose key matches case-insensitively. -/
def lookupHeader (k : String) : List (String × HeaderValue) → Option HeaderValue
  | [] => none
  | p :: t => if keyLower p.1 == keyLower k then some p.2 else lookupHeader k t

/-- Case-insensitive assignment `headers[k] = v`: stores the new entry and
drops any previous entry under the same (case-insensitive) key. -/
def setHeader (k : String) (v : HeaderValue) (hs : List (String × HeaderValue)) :
    List (String × HeaderValue) :=
  (k, v) :: hs.filter fun p => keyLower p.1 != keyLower k

/-- Model of `requests.sessions.merge_setting` applied to headers when a request is
prepared: request-level headers take precedence over session-level ones
under case-insensitive key comparison. -/
def mergeHeaders (sessionHs reqHs : List (String × HeaderValue)) :
    List (String × HeaderValue) :=
  reqHs ++ sessionHs.filter fun p => reqHs.all fun q => keyLower q.1 != keyLower p.1

/-- The headers actually emitted on the wire for a prepared request.
Modelled from the spec (behavior of the external collaborators `requests`
and `urllib3`, not code of this repository): an entry whose value is the
Python `None` is deleted before sending, and an entry whose value is
`urllib3.util.SKIP_HEADER` produces no header line; only string-valued
entries are sent. -/
def sentHeaders : List (String × HeaderValue) → List (String × String)
  | [] => []
  | (k, .str v) :: t => (k, v) :: sentHeaders t
  | (_, .pyNone) :: t => sentHeaders t
  | (_, .skipHeader) :: t => sentHeaders t

/-- Case-insensitive lookup among the headers emitted on the wire. -/
def lookupSent (k : String) : List (String × String) → Option String
  | [] => none
  | p :: t => if keyLower p.1 == keyLower k then some p.2 else lookupSent k t

/-! ## User-Agent strategies (`http.py`, class `UserAgent`) -/

/-- Stands for the version string of the external `requests` distribution
(`requests.__version__`); its concrete value is irrelevant to every claim. -/
def requestsVersion : String := "2.31.0"

/-- Model of `requests_toolbelt.utils.user_agent.UserAgentBuilder(name, version).build()`
with no extras: the string `name/version` (external collaborator). -/
def userAgentBuilderBuild (name version : String) : String :=
  name ++ "/" ++ version

/-- Model of `UserAgent.none`: always returns `urllib3.util.SKIP_HEADER`, meaning
that no user agent will be sent. -/
def UserAgent.none : UAProvider := fun _ => .skipHeader

/-- Model of `UserAgent.default`: returns the default `python-requests/version`
user agent string. -/
def UserAgent.defaultStrategy : UAProvider := fun _ =>
  .str (userAgentBuilderBuild "python-requests" requestsVersion)

/-! ## Adapters and connection pools -/

/-- The connection-pool classes a pool manager can instantiate per scheme:
the two stock `urllib3` pools and the two per-request overrides of
`http.py`. -/
inductive PoolClass where
  | HTTPConnectionPool
  | HTTPSConnectionPool
  | PerRequestHTTPPool
  | PerRequestHTTPSPool
deriving DecidableEq, Repr

/-- A transport adapter as far as this layer distinguishes them: the stock
`requests.adapters.HTTPAdapter` or the overridden `PerRequestAdapter`. -/
inductive Adapter where
  | httpAdapter
  | perRequestAdapter
deriving DecidableEq, Repr

/-- The `pool_classes_by_scheme` assignment performed by
`PerRequestAdapter.init_poolmanager` on its freshly built `PoolManager`. -/
def PerRequestAdapter.poolClassesByScheme : List (String × PoolClass) :=
  [("http", .PerRequestHTTPPool), ("https", .PerRequestHTTPSPool)]

/-- The adapters `requests.Session.__init__` mounts: a stock `HTTPAdapter` for both URL
schemes (external collaborator default). -/
def defaultAdapters : List (String × Adapter) :=
  [("https://", .httpAdapter), ("http://", .httpAdapter)]

/-- Model of `Session.mount(prefix, adapter)`: registers `adapter` for `prefix`,
replacing any adapter previously registered for the same prefix. -/
def mount (p : String) (a : Adapter) (l : List (String × Adapter)) :
    List (String × Adapter) :=
  (p, a) :: l.filter fun q => q.1 != p

/-- The adapter registered for a given URL-scheme prefix. -/
def getAdapter (p : String) : List (String × Adapter) → Option Adapter
  | [] => none
  | q :: t => if q.1 == p then some q.2 else getAdapter p t

/-- A pooled connection, as far as this layer observes it: an identity and
whether it has been closed. -/
structure PoolConn where
  id : Nat
  isClosed : Bool
deriving DecidableEq, Repr

/-- State of a (possibly overridden) `urllib3` connection pool: the queue of
connections available for reuse.  `none` entries are the empty slots the
stock pool pre-fills its queue with. -/
structure ConnPoolState where
  pool : List (Option PoolConn)

/-- Model of `conn.close()` as observed on the connection value. -/
def PoolConn.close (c : PoolConn) : PoolConn :=
  { c with isClosed := true }

/-- Model of `PerRequestHTTPPool._put_conn(conn)`, i.e. `if conn: conn.close()` — the
connection is closed when it is not `None`, and nothing is ever put into
the reuse queue.  The returned pair is the pool state after the call and
the connection's state after the call. -/
def PerRequestHTTPPool.putConn (st : ConnPoolState) (conn : Option PoolConn) :
    ConnPoolState × Option PoolConn :=
  match conn with
  | some c => (st, some c.close)
  | none => (st, none)

/-- Model of `PerRequestHTTPSPool._put_conn(conn)`: identical override on the HTTPS
pool class. -/
def PerRequestHTTPSPool.putConn (st : ConnPoolState) (conn : Option PoolConn) :
    ConnPoolState × Option PoolConn :=
  match conn with
  | some c => (st, some c.close)
  | none => (st, none)

/-! ## Base session (`http.py`, class `RequestsSession`) -/

/-- Observable state of a `RequestsSession` after construction: the fields
set by `BaseUrlSession.__init__`/`requests.Session.__init__` that this
layer touches, plus the attributes `__init__` assigns, plus the
invocation counter for the (possibly stateful) user-agent callable. -/
structure RequestsSessionState where
  baseUrl : Option String
  verify : Bool
  perRequestConn : Bool
  userAgent : UAProvider
  adapters : List (String × Adapter)
  headers : List (String × HeaderValue)
  uaCalls : Nat

/-- Resolution of the `per_request_conn` parameter, extracted from
`RequestsSession.__init__`: explicit argument if not `None`, else the
configuration-store field if it is not the `default` sentinel, else
`False`. -/
def resolvePerRequestConn (arg : Option Bool) (cfg : Config) : Bool :=
  match arg with
  | some b => b
  | none =>
    match cfg.session_per_request_conn with
    | .default => false
    | .val b => b

/-- Resolution of the `user_agent` parameter, extracted from
`RequestsSession.__init__`: explicit argument if not `None`, else the
configuration-store field if it is not the `default` sentinel, else
`UserAgent.default`. -/
def resolveUserAgent (arg : Option UAProvider) (cfg : Config) : UAProvider :=
  match arg with
  | some f => f
  | none =>
    match cfg.session_user_agent with
    | .default => UserAgent.defaultStrategy
    | .val f => f

/-- Model of `RequestsSession.__init__(base_url, per_request_conn, user_agent)`,
reading the configuration store `cfg` (the process-wide `sploitcfg`).
`dfltHeaders` is the header collection `requests.Session.__init__`
installs (an external collaborator's value, hence a parameter).  After the
superclass call the constructor disables verification, stores the resolved
attributes, and — only when per-request mode resolved true — mounts a
`PerRequestAdapter` for both schemes and sets the `Connection` header to
the Python `None`. -/
def RequestsSession.init (dfltHeaders : List (String × HeaderValue))
    (base_url : Option String) (per_request_conn : Option Bool)
    (user_agent : Option UAProvider) (cfg : Config) : RequestsSessionState :=
  let prc := resolvePerRequestConn per_request_conn cfg
  let ua := resolveUserAgent user_agent cfg
  let s0 : RequestsSessionState :=
    { baseUrl := base_url
      verify := false
      perRequestConn := prc
      userAgent := ua
      adapters := defaultAdapters
      headers := dfltHeaders
      uaCalls := 0 }
  if prc then
    { s0 with
      adapters := mount "http://" .perRequestAdapter
        (mount "https://" .perRequestAdapter s0.adapters)
      headers := setHeader "Connection" .pyNone s0.headers }
  else
    s0

/-- A not-yet-prepared `requests.Request` as far as this layer touches it:
its headers dictionary. -/
structure Request where
  headers : List (String × HeaderValue)

/-- A prepared request's headers (session headers merged under the
request's, per `requests.Session.prepare_request`). -/
structure PreparedRequest where
  headers : List (String × HeaderValue)

/-- Model of `RequestsSession.prepare_request(request)`: invokes the user-agent
callable once, writes its result into the request's `User-Agent` header,
and delegates to the superclass, which merges the session headers under
the request headers.  Returns the session state after the call (only the
callable's invocation counter has advanced) and the prepared request. -/
def RequestsSession.prepareRequest (s : RequestsSessionState) (r : Request) :
    RequestsSessionState × PreparedRequest :=
  let v := (s.userAgent s.uaCalls).toHeaderValue
  let rh := setHeader "User-Agent" v r.headers
  ({ s with uaCalls := s.uaCalls + 1 },
   { headers := mergeHeaders s.headers rh })

/-! ## Cache-proxy session (`http.py`, class `CacheProxySession`) -/

/-- Observable state of a `CacheProxySession` after construction. -/
structure CacheProxySessionState where
  headers : List (String × HeaderValue)
  proxies : List (String × String)
  verify : Bool
deriving Repr

/-- The `ValueError` message raised when `proxy_url` cannot be resolved. -/
def cacheProxyUrlMissingMsg : String :=
  "proxy_url is None and sploitcfg.cache_proxy_url is None too, at least one must be set"

/-- The `ValueError` message raised when `auth_key` cannot be resolved. -/
def cacheAuthKeyMissingMsg : String :=
  "auth_key is None and sploitcfg.cache_auth_key is None too, at least one must be set"

/-- The `ValueError` message raised when `duration` cannot be resolved. -/
def cacheDurationMissingMsg : String :=
  "duration is None and sploitcfg.cache_duration is None too, at least one must be set"

/-- Resolution of one cache-proxy field, extracted from
`CacheProxySession.__init__`: the explicit argument if not `None`, else
the configuration-store field (which may itself be `None`). -/
def resolveCacheField (arg cfgField : Option String) : Option String :=
  match arg with
  | some v => some v
  | none => cfgField

/-- Model of `CacheProxySession.__init__(proxy_url, auth_key, duration)`, reading
the configuration store `cfg`.  The three fields are checked sequentially
in source order; the first one that resolves to nothing raises a
`ValueError` with its message.  On success `__init__` replaces the entire
headers dictionary installed by `requests.Session.__init__`
(`dfltHeaders`) with exactly the two cache headers, points both proxy
schemes at the resolved URL, and disables verification. -/
def CacheProxySession.init (dfltHeaders : List (String × HeaderValue))
    (proxy_url auth_key duration : Option String) (cfg : Config) :
    Except String CacheProxySessionState :=
  match resolveCacheField proxy_url cfg.cache_proxy_url with
  | none => .error cacheProxyUrlMissingMsg
  | some pu =>
    match resolveCacheField auth_key cfg.cache_auth_key with
    | none => .error cacheAuthKeyMissingMsg
    | some ak =>
      match resolveCacheField duration cfg.cache_duration with
      | none => .error cacheDurationMissingMsg
      | some d =>
        let s0 : CacheProxySessionState :=
          { headers := dfltHeaders, proxies := [], verify := true }
        let s1 := { s0 with
          headers := [("X-Cache-Auth-Key", .str ak), ("X-Cache-Duration", .str d)] }
        let s2 := { s1 with proxies := [("http", pu), ("https", pu)] }
        .ok { s2 with verify := false }

/-! ## Process-wide store and sessions as a small world

Used to state the frame claims: the store `sploitcfg` is read only inside
session constructors, and mutating it afterwards touches no constructed
session. -/

/-- The default headers `requests.Session.__init__` installs
(`requests.utils.default_headers()`, an external collaborator's value):
a User-Agent, Accept-Encoding, Accept and Connection entry. -/
def requestsDefaultHeaders : List (String × HeaderValue) :=
  [("User-Agent", .str (userAgentBuilderBuild "python-requests" requestsVersion)),
   ("Accept-Encoding", .str "gzip, deflate"),
   ("Accept", .str "*/*"),
   ("Connection", .str "keep-alive")]

/-- A world: the process-wide `sploitcfg` store plus the base sessions
constructed so far. -/
structure World where
  sploitcfg : Config
  sessions : List RequestsSessionState

/-- Constructing a `RequestsSession` in a world: the constructor reads the
current store once and the resulting session is recorded. -/
def World.constructSession (w : World) (base_url : Option String)
    (per_request_conn : Option Bool) (user_agent : Option UAProvider) :
    World × RequestsSessionState :=
  let s := RequestsSession.init requestsDefaultHeaders base_url
    per_request_conn user_agent w.sploitcfg
  ({ w with sessions := w.sessions ++ [s] }, s)

/-- The call `sploitcfg.set(cfg)` in a world: the store is overwritten field by
field; nothing else in the world is named by `Config.set`. -/
def World.setConfig (w : World) (cfg : Config) : World :=
  { w with sploitcfg := w.sploitcfg.set cfg }

/-! ## Textual content of error messages

Used to state formally which configuration fields an error message
identifies: a message identifies a field when the field's name occurs in
the message text. -/

/-- Whether `needle` occurs at the head of `hay` (character lists). -/
def startsWithList : List Char → List Char → Bool
  | [], _ => true
  | _ :: _, [] => false
  | a :: as, b :: bs => a == b && startsWithList as bs

/-- Whether `needle` occurs anywhere inside `hay` (character lists). -/
def containsSub (needle : List Char) : List Char → Bool
  | [] => startsWithList needle []
  | c :: t => startsWithList needle (c :: t) || containsSub needle t

/-- Whether the text `msg` mentions `field` (as a substring). -/
def mentions (msg field : String) : Bool :=
  containsSub field.data msg.data

/-! ## Helper lemmas -/

/-- A header set under key `k` is found first by the case-insensitive
lookup. -/
theorem lookupHeader_head_self (k : String) (v : HeaderValue)
    (rest : List (String × HeaderValue)) :
    lookupHeader k ((k, v) :: rest) = some v := by
  simp [lookupHeader]

/-- Every entry of `setHeader k v hs` whose key matches `k`
case-insensitively carries the value `v`: the assignment removed all
previous entries under that key. -/
theorem setHeader_matching_eq (k : String) (v : HeaderValue)
    (hs : List (String × HeaderValue)) :
    ∀ p ∈ setHeader k v hs, keyLower p.1 = keyLower k → p.2 = v := by
  intro p hp he
  rcases List.mem_cons.mp hp with h1 | h1
  · rw [h1]
  · have h2 := (List.mem_filter.mp h1).2
    rw [bne_iff_ne] at h2
    exact absurd he h2

/-- Every entry of the merged headers whose key matches `k`
case-insensitively carries the value `v`, when the request headers were
produced by `setHeader k v`: the request-level assignment shadows every
session-level entry under that key. -/
theorem mergeHeaders_matching_eq (k : String) (v : HeaderValue)
    (sessionHs reqHs : List (String × HeaderValue)) :
    ∀ p ∈ mergeHeaders sessionHs (setHeader k v reqHs),
      keyLower p.1 = keyLower k → p.2 = v := by
  intro p hp he
  rcases List.mem_append.mp hp with h1 | h1
  · exact setHeader_matching_eq k v reqHs p h1 he
  · have hall := (List.mem_filter.mp h1).2
    have hhead := List.all_eq_true.mp hall (k, v) (List.mem_cons_self _ _)
    rw [bne_iff_ne] at hhead
    exact absurd he.symm hhead

/-- If every entry of `hs` whose key matches `k` case-insensitively holds
a non-string value (the Python `None` or the `SKIP_HEADER` sentinel),
then no header named `k` appears on the wire. -/
theorem lookupSent_sentHeaders_eq_none (k : String)
    (hs : List (String × HeaderValue))
    (h : ∀ p ∈ hs, keyLower p.1 = keyLower k →
      p.2 = HeaderValue.pyNone ∨ p.2 = HeaderValue.skipHeader) :
    lookupSent k (sentHeaders hs) = none := by
  induction hs with
  | nil => rfl
  | cons p t ih =>
    have ht : ∀ q ∈ t, keyLower q.1 = keyLower k →
        q.2 = HeaderValue.pyNone ∨ q.2 = HeaderValue.skipHeader :=
      fun q hq => h q (List.mem_cons_of_mem _ hq)
    obtain ⟨k', v⟩ := p
    match v with
    | .pyNone => simpa [sentHeaders] using ih ht
    | .skipHeader => simpa [sentHeaders] using ih ht
    | .str s =>
      have hk : ¬ keyLower k' = keyLower k := by
        intro he
        rcases h (k', .str s) (List.mem_cons_self _ _) he with h1 | h1 <;>
          exact HeaderValue.noConfusion h1
      show lookupSent k ((k', s) :: sentHeaders t) = none
      simp only [lookupSent]
      rw [if_neg (by simpa using hk)]
      exact ih ht

/-- Converting a user-agent result into a header value is injective. -/
theorem UAValue.toHeaderValue_inj {a b : UAValue}
    (h : a.toHeaderValue = b.toHeaderValue) : a = b := by
  cases a <;> cases b <;> simp_all [UAValue.toHeaderValue]

/-! ## Claim theorems -/

/-- C5: `configuration.set(other)` replaces every one of the five fields
with `other`'s corresponding value — including when `other`'s field holds
the unset sentinel — so the resulting store is exactly `other`; `set` is a
total function, performing no validation and raising no error. -/
theorem c5_config_set_is_full_overwrite (a b : Config) :
    Config.set a b = b ∧
    Config.set a { b with session_per_request_conn := .default,
                          session_user_agent := .default,
                          cache_proxy_url := none }
      = { b with session_per_request_conn := .default,
                 session_user_agent := .default,
                 cache_proxy_url := none } :=
  ⟨Config.set_eq a b, Config.set_eq a _⟩

/-- C2: the release-to-pool operation of both per-request pool variants
closes the released connection (when one is present) and never returns it
to the reuse pool — the pool's queue is left exactly as it was, so no
reusable live connection is retained after a request completes. -/
theorem c2_put_conn_closes_and_never_pools (st : ConnPoolState)
    (conn : Option PoolConn) (c : PoolConn) :
    (PerRequestHTTPPool.putConn st conn).1 = st ∧
    (PerRequestHTTPSPool.putConn st conn).1 = st ∧
    (PerRequestHTTPPool.putConn st (some c)).2 = some { c with isClosed := true } ∧
    (PerRequestHTTPSPool.putConn st (some c)).2 = some { c with isClosed := true } := by
  refine ⟨?_, ?_, rfl, rfl⟩ <;> cases conn <;> rfl

/-- C3: each optional parameter of the base session resolves as: explicit
argument if given, else the configuration-store value if it is not the
unset sentinel, else the hard-coded default (`false` for
`per_request_conn`, the default User-Agent strategy for `user_agent`);
the unset sentinel is distinguishable from concrete values such as
`false` or the empty string. -/
theorem c3_base_session_resolution_order
    (dflt : List (String × HeaderValue)) (base : Option String)
    (prc : Option Bool) (ua : Option UAProvider) (cfg : Config)
    (b : Bool) (f : UAProvider) :
    (RequestsSession.init dflt base prc ua cfg).perRequestConn
        = resolvePerRequestConn prc cfg ∧
    (RequestsSession.init dflt base prc ua cfg).userAgent
        = resolveUserAgent ua cfg ∧
    resolvePerRequestConn (some b) cfg = b ∧
    resolvePerRequestConn none { cfg with session_per_request_conn := .val b } = b ∧
    resolvePerRequestConn none { cfg with session_per_request_conn := .default } = false ∧
    resolveUserAgent (some f) cfg = f ∧
    resolveUserAgent none { cfg with session_user_agent := .val f } = f ∧
    resolveUserAgent none { cfg with session_user_agent := .default }
        = UserAgent.defaultStrategy ∧
    ((DefaultOr.default : DefaultOr Bool) == DefaultOr.val false) = false ∧
    ((none : Option String) == some "") = false := by
  refine ⟨?_, ?_, rfl, rfl, rfl, rfl, rfl, rfl, rfl, rfl⟩ <;>
    · unfold RequestsSession.init
      dsimp only
      split <;> rfl

/-- C10: the configuration store is read only at construction time —
after a base session is constructed, overwriting the store via `set`
leaves every previously constructed session untouched (the constructed
session is a function of the store as it was at construction), and the
`set` operation touches nothing in the world besides the store's five
fields. -/
theorem c10_sessions_unaffected_by_later_config_set (w : World)
    (base : Option String) (prc : Option Bool) (ua : Option UAProvider)
    (cfg2 : Config) :
    ((w.constructSession base prc ua).1.setConfig cfg2).sessions
        = (w.constructSession base prc ua).1.sessions ∧
    (w.constructSession base prc ua).2
        = RequestsSession.init requestsDefaultHeaders base prc ua w.sploitcfg ∧
    ((w.constructSession base prc ua).1.setConfig cfg2).sploitcfg = cfg2 ∧
    (w.setConfig cfg2).sessions = w.sessions :=
  ⟨rfl, rfl, rfl, rfl⟩

/-- C6: a successfully constructed cache-proxy session routes both the
`http` and `https` schemes through the resolved proxy URL as a forward
proxy, and its session headers carry `X-Cache-Auth-Key` = the resolved
auth key and `X-Cache-Duration` = the resolved duration, so every request
issued by the session carries them. -/
theorem c6_cache_proxy_routing_and_headers
    (dflt : List (String × HeaderValue)) (pu ak d : Option String)
    (cfg : Config) (st : CacheProxySessionState)
    (h : CacheProxySession.init dflt pu ak d cfg = .ok st) :
    ∃ u k dur,
      resolveCacheField pu cfg.cache_proxy_url = some u ∧
      resolveCacheField ak cfg.cache_auth_key = some k ∧
      resolveCacheField d cfg.cache_duration = some dur ∧
      st.proxies = [("http", u), ("https", u)] ∧
      lookupHeader "X-Cache-Auth-Key" st.headers = some (.str k) ∧
      lookupHeader "X-Cache-Duration" st.headers = some (.str dur) := by
  unfold CacheProxySession.init at h
  split at h
  · exact Except.noConfusion h
  next u hpu =>
    split at h
    · exact Except.noConfusion h
    next k hak =>
      split at h
      · exact Except.noConfusion h
      next dur hd =>
        dsimp only at h
        obtain rfl := (Except.ok.inj h).symm
        exact ⟨u, k, dur, hpu, hak, hd, rfl, rfl, rfl⟩

/-- C6 witness: the spec's concrete example, `proxyURL="http://cache:8080"`,
`authKey="k1"`, `duration="5m"` against an empty configuration store. -/
theorem c6_witness :
    ∃ u k dur,
      resolveCacheField (some "http://cache:8080") Config.initial.cache_proxy_url
          = some u ∧
      resolveCacheField (some "k1") Config.initial.cache_auth_key = some k ∧
      resolveCacheField (some "5m") Config.initial.cache_duration = some dur ∧
      ({ headers := [("X-Cache-Auth-Key", .str "k1"), ("X-Cache-Duration", .str "5m")],
         proxies := [("http", "http://cache:8080"), ("https", "http://cache:8080")],
         verify := false } : CacheProxySessionState).proxies
          = [("http", u), ("https", u)] ∧
      lookupHeader "X-Cache-Auth-Key"
          ({ headers := [("X-Cache-Auth-Key", .str "k1"), ("X-Cache-Duration", .str "5m")],
             proxies := [("http", "http://cache:8080"), ("https", "http://cache:8080")],
             verify := false } : CacheProxySessionState).headers = some (.str k) ∧
      lookupHeader "X-Cache-Duration"
          ({ headers := [("X-Cache-Auth-Key", .str "k1"), ("X-Cache-Duration", .str "5m")],
             proxies := [("http", "http://cache:8080"), ("https", "http://cache:8080")],
             verify := false } : CacheProxySessionState).headers = some (.str dur) :=
  c6_cache_proxy_routing_and_headers requestsDefaultHeaders
    (some "http://cache:8080") (some "k1") (some "5m") Config.initial _ rfl

/-- C8: after any construction that succeeds, TLS certificate verification
is disabled: a base session always has `verify = false`, and a cache-proxy
session has `verify = false` whenever its constructor returns at all. -/
theorem c8_verify_disabled_for_both_session_types
    (dflt : List (String × HeaderValue)) (base : Option String)
    (prc : Option Bool) (ua : Option UAProvider) (cfg : Config)
    (pu ak d : Option String) (st : CacheProxySessionState) :
    (RequestsSession.init dflt base prc ua cfg).verify = false ∧
    (CacheProxySession.init dflt pu ak d cfg = .ok st → st.verify = false) := by
  constructor
  · unfold RequestsSession.init
    dsimp only
    split <;> rfl
  · intro h
    unfold CacheProxySession.init at h
    split at h
    · exact Except.noConfusion h
    split at h
    · exact Except.noConfusion h
    split at h
    · exact Except.noConfusion h
    dsimp only at h
    obtain rfl := (Except.ok.inj h).symm
    rfl

/-- C8 witness: a concrete base session and a concrete successfully
constructed cache-proxy session, both with verification disabled. -/
theorem c8_witness :
    (RequestsSession.init requestsDefaultHeaders none none none Config.initial).verify
        = false ∧
    ({ headers := [("X-Cache-Auth-Key", .str "k1"), ("X-Cache-Duration", .str "5m")],
       proxies := [("http", "http://cache:8080"), ("https", "http://cache:8080")],
       verify := false } : CacheProxySessionState).verify = false :=
  ⟨(c8_verify_disabled_for_both_session_types requestsDefaultHeaders none none none
      Config.initial (some "http://cache:8080") (some "k1") (some "5m")
      { headers := [("X-Cache-Auth-Key", .str "k1"), ("X-Cache-Duration", .str "5m")],
        proxies := [("http", "http://cache:8080"), ("https", "http://cache:8080")],
        verify := false }).1,
   (c8_verify_disabled_for_both_session_types requestsDefaultHeaders none none none
      Config.initial (some "http://cache:8080") (some "k1") (some "5m")
      { headers := [("X-Cache-Auth-Key", .str "k1"), ("X-Cache-Duration", .str "5m")],
        proxies := [("http", "http://cache:8080"), ("https", "http://cache:8080")],
        verify := false }).2 rfl⟩

/-- C9: after a successful cache-proxy construction the session's header
collection is exactly the two cache headers — whatever default headers the
underlying client installed (User-Agent, Accept, ...) are gone, because
the constructor replaces the whole collection instead of adding to it. -/
theorem c9_cache_proxy_headers_fully_replaced
    (dflt : List (String × HeaderValue)) (pu ak d : Option String)
    (cfg : Config) (st : CacheProxySessionState)
    (h : CacheProxySession.init dflt pu ak d cfg = .ok st) :
    st.headers.map Prod.fst = ["X-Cache-Auth-Key", "X-Cache-Duration"] ∧
    (∃ k dur, st.headers
        = [("X-Cache-Auth-Key", .str k), ("X-Cache-Duration", .str dur)]) ∧
    lookupHeader "User-Agent" st.headers = none ∧
    lookupHeader "Accept" st.headers = none := by
  unfold CacheProxySession.init at h
  split at h
  · exact Except.noConfusion h
  split at h
  · exact Except.noConfusion h
  split at h
  · exact Except.noConfusion h
  next dur hd =>
    dsimp only at h
    obtain rfl := (Except.ok.inj h).symm
    exact ⟨rfl, ⟨_, dur, rfl⟩, rfl, rfl⟩

/-- C9 witness: construction on top of the client's standard default
headers (which do contain User-Agent and Accept entries) leaves exactly
the two cache headers. -/
theorem c9_witness :
    ([("X-Cache-Auth-Key", HeaderValue.str "k1"),
      ("X-Cache-Duration", HeaderValue.str "5m")].map Prod.fst
        = ["X-Cache-Auth-Key", "X-Cache-Duration"]) ∧
    (∃ k dur, [("X-Cache-Auth-Key", HeaderValue.str "k1"),
               ("X-Cache-Duration", HeaderValue.str "5m")]
        = [("X-Cache-Auth-Key", .str k), ("X-Cache-Duration", .str dur)]) ∧
    lookupHeader "User-Agent"
      [("X-Cache-Auth-Key", HeaderValue.str "k1"),
       ("X-Cache-Duration", HeaderValue.str "5m")] = none ∧
    lookupHeader "Accept"
      [("X-Cache-Auth-Key", HeaderValue.str "k1"),
       ("X-Cache-Duration", HeaderValue.str "5m")] = none := by
  have h := c9_cache_proxy_headers_fully_replaced requestsDefaultHeaders
    (some "http://cache:8080") (some "k1") (some "5m") Config.initial
    { headers := [("X-Cache-Auth-Key", .str "k1"), ("X-Cache-Duration", .str "5m")],
      proxies := [("http", "http://cache:8080"), ("https", "http://cache:8080")],
      verify := false } rfl
  exact h

/-- C7: when `per_request_conn` resolves true, construction of a base
session mounts the per-request adapter for both URL schemes and sets the
session `Connection` header to the Python `None`, which forces the header
absent on the wire; when it resolves false, the adapters and headers stay
exactly as the underlying client installed them. -/
theorem c7_per_request_conn_side_effects
    (dflt : List (String × HeaderValue)) (base : Option String)
    (prc : Option Bool) (ua : Option UAProvider) (cfg : Config) :
    (resolvePerRequestConn prc cfg = true →
      getAdapter "http://" (RequestsSession.init dflt base prc ua cfg).adapters
          = some .perRequestAdapter ∧
      getAdapter "https://" (RequestsSession.init dflt base prc ua cfg).adapters
          = some .perRequestAdapter ∧
      lookupHeader "Connection" (RequestsSession.init dflt base prc ua cfg).headers
          = some .pyNone ∧
      lookupSent "Connection"
          (sentHeaders (RequestsSession.init dflt base prc ua cfg).headers) = none) ∧
    (resolvePerRequestConn prc cfg = false →
      (RequestsSession.init dflt base prc ua cfg).adapters = defaultAdapters ∧
      (RequestsSession.init dflt base prc ua cfg).headers = dflt) := by
  constructor
  · intro h
    unfold RequestsSession.init
    dsimp only
    rw [if_pos h]
    refine ⟨rfl, rfl, lookupHeader_head_self _ _ _, ?_⟩
    exact lookupSent_sentHeaders_eq_none _ _
      (fun p hp he => .inl (setHeader_matching_eq _ _ _ p hp he))
  · intro h
    unfold RequestsSession.init
    dsimp only
    rw [if_neg (by simp [h])]
    exact ⟨rfl, rfl⟩

/-- C7 witness: a session constructed with `per_request_conn=True` has the
per-request adapter mounted for both schemes and no `Connection` header on
the wire; one constructed with `per_request_conn=False` keeps the default
adapters and headers. -/
theorem c7_witness :
    (getAdapter "http://"
        (RequestsSession.init requestsDefaultHeaders none (some true) none
          Config.initial).adapters = some .perRequestAdapter ∧
      getAdapter "https://"
        (RequestsSession.init requestsDefaultHeaders none (some true) none
          Config.initial).adapters = some .perRequestAdapter ∧
      lookupHeader "Connection"
        (RequestsSession.init requestsDefaultHeaders none (some true) none
          Config.initial).headers = some .pyNone ∧
      lookupSent "Connection"
        (sentHeaders (RequestsSession.init requestsDefaultHeaders none (some true)
          none Config.initial).headers) = none) ∧
    ((RequestsSession.init requestsDefaultHeaders none (some false) none
        Config.initial).adapters = defaultAdapters ∧
      (RequestsSession.init requestsDefaultHeaders none (some false) none
        Config.initial).headers = requestsDefaultHeaders) :=
  ⟨(c7_per_request_conn_side_effects requestsDefaultHeaders none (some true) none
      Config.initial).1 rfl,
   (c7_per_request_conn_side_effects requestsDefaultHeaders none (some false) none
      Config.initial).2 rfl⟩

/-- C4: preparing a request invokes the resolved user-agent callable once
and writes its result as the request's `User-Agent` header, overwriting
any value previously set on the request or the session; when the callable
returns the `SKIP_HEADER` sentinel the header is absent from the outgoing
request entirely; `UserAgent.none` returns that sentinel and not the empty
string; and on the next request of the same session (unchanged except for
the invocation counter) the callable's next value becomes the header. -/
theorem c4_user_agent_written_per_request
    (s : RequestsSessionState) (r r2 : Request) (n : Nat) :
    lookupHeader "User-Agent" (RequestsSession.prepareRequest s r).2.headers
        = some (s.userAgent s.uaCalls).toHeaderValue ∧
    (RequestsSession.prepareRequest s r).1 = { s with uaCalls := s.uaCalls + 1 } ∧
    (s.userAgent s.uaCalls = .skipHeader →
      lookupSent "User-Agent"
        (sentHeaders (RequestsSession.prepareRequest s r).2.headers) = none) ∧
    UserAgent.none n = .skipHeader ∧
    (UAValue.skipHeader == UAValue.str "") = false ∧
    lookupHeader "User-Agent"
        (RequestsSession.prepareRequest
          (RequestsSession.prepareRequest s r).1 r2).2.headers
        = some (s.userAgent (s.uaCalls + 1)).toHeaderValue ∧
    (s.userAgent s.uaCalls ≠ s.userAgent (s.uaCalls + 1) →
      lookupHeader "User-Agent" (RequestsSession.prepareRequest s r).2.headers
        ≠ lookupHeader "User-Agent"
            (RequestsSession.prepareRequest
              (RequestsSession.prepareRequest s r).1 r2).2.headers) := by
  have h1 : lookupHeader "User-Agent" (RequestsSession.prepareRequest s r).2.headers
      = some (s.userAgent s.uaCalls).toHeaderValue :=
    lookupHeader_head_self _ _ _
  have h6 : lookupHeader "User-Agent"
      (RequestsSession.prepareRequest
        (RequestsSession.prepareRequest s r).1 r2).2.headers
      = some (s.userAgent (s.uaCalls + 1)).toHeaderValue :=
    lookupHeader_head_self _ _ _
  refine ⟨h1, rfl, ?_, rfl, rfl, h6, ?_⟩
  · intro h
    refine lookupSent_sentHeaders_eq_none _ _ ?_
    intro p hp he
    right
    have hm := mergeHeaders_matching_eq "User-Agent"
      (s.userAgent s.uaCalls).toHeaderValue s.headers r.headers p hp he
    rw [hm, h]
    rfl
  · intro hne heq
    rw [h1, h6] at heq
    exact hne (UAValue.toHeaderValue_inj (Option.some.inj heq))

/-- Concrete session used to witness the per-request user-agent behavior:
its provider returns the omit sentinel on the first call and a string on
later calls. -/
def uaWitnessSession : RequestsSessionState :=
  { baseUrl := none
    verify := false
    perRequestConn := false
    userAgent := fun n => if n == 0 then UAValue.skipHeader else UAValue.str "x"
    adapters := defaultAdapters
    headers := requestsDefaultHeaders
    uaCalls := 0 }

/-- Concrete request with a stale `User-Agent` header already set. -/
def uaWitnessReq : Request :=
  { headers := [("User-Agent", .str "stale")] }

/-- Concrete second request with no headers. -/
def uaWitnessReq2 : Request :=
  { headers := [] }

/-- C4 witness: on the concrete session the first prepared request carries
no `User-Agent` on the wire (the provider returned the sentinel) and the
second prepared request's header differs from the first's. -/
theorem c4_witness :
    (uaWitnessSession.userAgent uaWitnessSession.uaCalls = UAValue.skipHeader ∧
      uaWitnessSession.userAgent uaWitnessSession.uaCalls
        ≠ uaWitnessSession.userAgent (uaWitnessSession.uaCalls + 1)) ∧
    lookupSent "User-Agent"
        (sentHeaders (RequestsSession.prepareRequest uaWitnessSession
          uaWitnessReq).2.headers) = none ∧
    lookupHeader "User-Agent"
        (RequestsSession.prepareRequest uaWitnessSession uaWitnessReq).2.headers
      ≠ lookupHeader "User-Agent"
          (RequestsSession.prepareRequest
            (RequestsSession.prepareRequest uaWitnessSession uaWitnessReq).1
            uaWitnessReq2).2.headers :=
  ⟨⟨rfl, by decide⟩,
   (c4_user_agent_written_per_request uaWitnessSession uaWitnessReq uaWitnessReq2
      0).2.2.1 rfl,
   (c4_user_agent_written_per_request uaWitnessSession uaWitnessReq uaWitnessReq2
      0).2.2.2.2.2.2 (by decide)⟩

/-- C1 counterexample: with all three of proxy URL, auth key and duration
absent as arguments and in the configuration store, construction raises
the error for `proxy_url` alone — its message names `proxy_url` but
mentions neither `auth_key` nor `duration`, so the error does not identify
all three missing fields. -/
theorem c1_counterexample_error_names_only_proxy_url :
    CacheProxySession.init requestsDefaultHeaders none none none Config.initial
        = .error cacheProxyUrlMissingMsg ∧
    mentions cacheProxyUrlMissingMsg "proxy_url" = true ∧
    mentions cacheProxyUrlMissingMsg "auth_key" = false ∧
    mentions cacheProxyUrlMissingMsg "duration" = false :=
  ⟨rfl, by decide, by decide, by decide⟩

/-- C1 (amended): each of the three fields has its own check and its own
error message naming it, but the checks run sequentially in the order
proxy URL, auth key, duration, and construction fails at the first field
that resolves to nothing, reporting only that field — in particular, with
all three absent the error identifies only the proxy URL. -/
theorem c1_amended_first_missing_field_reported
    (dflt : List (String × HeaderValue)) (pu ak d : Option String) (cfg : Config) :
    (resolveCacheField pu cfg.cache_proxy_url = none →
      CacheProxySession.init dflt pu ak d cfg = .error cacheProxyUrlMissingMsg) ∧
    (∀ u, resolveCacheField pu cfg.cache_proxy_url = some u →
      resolveCacheField ak cfg.cache_auth_key = none →
      CacheProxySession.init dflt pu ak d cfg = .error cacheAuthKeyMissingMsg) ∧
    (∀ u k, resolveCacheField pu cfg.cache_proxy_url = some u →
      resolveCacheField ak cfg.cache_auth_key = some k →
      resolveCacheField d cfg.cache_duration = none →
      CacheProxySession.init dflt pu ak d cfg = .error cacheDurationMissingMsg) ∧
    mentions cacheAuthKeyMissingMsg "auth_key" = true ∧
    mentions cacheDurationMissingMsg "duration" = true := by
  refine ⟨?_, ?_, ?_, by decide, by decide⟩
  · intro h
    unfold CacheProxySession.init
    rw [h]
  · intro u hu h
    unfold CacheProxySession.init
    rw [hu, h]
  · intro u k hu hk h
    unfold CacheProxySession.init
    rw [hu, hk, h]

/-- C1 witness (for the amended claim): the three concrete failure points,
one per field, each reported with its own message. -/
theorem c1_amended_witness :
    CacheProxySession.init requestsDefaultHeaders none none none Config.initial
        = .error cacheProxyUrlMissingMsg ∧
    CacheProxySession.init requestsDefaultHeaders (some "p") none none Config.initial
        = .error cacheAuthKeyMissingMsg ∧
    CacheProxySession.init requestsDefaultHeaders (some "p") (some "k") none
        Config.initial = .error cacheDurationMissingMsg :=
  ⟨(c1_amended_first_missing_field_reported requestsDefaultHeaders none none none
      Config.initial).1 rfl,
   (c1_amended_first_missing_field_reported requestsDefaultHeaders (some "p") none
      none Config.initial).2.1 "p" rfl rfl,
   (c1_amended_first_missing_field_reported requestsDefaultHeaders (some "p")
      (some "k") none Config.initial).2.2.1 "p" "k" rfl rfl rfl⟩
